import Mathlib

/-!
Shallow embedding of the trust cross-validation engine of the
`x-account-analysis` repository (`trust_system/trusted_accounts.py` and
`trust_system/trust_integration.py`), together with theorems settling the
frozen claims about it.

Conventions of the embedding:
* Python dicts whose insertion order matters are modelled as association
  lists (`List (String × α)`), updated exactly as the source updates them.
* The external platform API (tweepy) is modelled as explicit inputs:
  the paginated follower fetch is a list of `FetchEvent`s (a delivered
  follower or a raised error, in delivery order) and the batched
  username-resolution endpoint is a function from batch index to
  `BatchOutcome`.  File-system cache and wall-clock validity checks are
  collapsed into an `Option` argument ("valid cached ids, if any").
* Python `float` arithmetic on the score fields is modelled over `ℚ`;
  `round(x, 1)` is modelled by `round1` below (the claims settled here do
  not depend on tie-breaking behaviour of rounding).
-/

/-! ### String helpers (Python `in`, `find`, `rfind`, `lower`, `strip`) -/

/-- True when `needle` occurs at the head of `hay` (character-list
version of a leading match). -/
def charsAtHead : List Char → List Char → Bool
  | [], _ => true
  | _ :: _, [] => false
  | n :: ns, h :: hs => n == h && charsAtHead ns hs

/-- True when `needle` occurs contiguously anywhere in `hay`; models the
Python membership test `needle in hay` on strings. -/
def charsContain (needle : List Char) : List Char → Bool
  | [] => needle.isEmpty
  | h :: t => charsAtHead needle (h :: t) || charsContain needle t

/-- Python `needle in hay` for strings. -/
def strContains (hay needle : String) : Bool :=
  charsContain needle.toList hay.toList

/-- Python `str.lower()` (the handles handled by the source are ASCII;
`Char.toLower` agrees with Python there).  Defined over the character
list because core `String.toLower` does not reduce in the kernel. -/
def strLower (s : String) : String := String.mk (s.toList.map Char.toLower)

/-- Python `str.strip()`: drop leading and trailing whitespace. -/
def strTrim (s : String) : String :=
  String.mk (((s.toList.dropWhile fun c => c.isWhitespace).reverse.dropWhile
    fun c => c.isWhitespace).reverse)

/-- Index of the first occurrence of `c` (Python `str.find`, `none` = -1). -/
def findIdxChar (c : Char) : List Char → Option Nat
  | [] => none
  | h :: t => if h == c then some 0 else (findIdxChar c t).map (· + 1)

/-- Index of the last occurrence of `c` (Python `str.rfind`, `none` = -1). -/
def rfindIdxChar (c : Char) (l : List Char) : Option Nat :=
  match findIdxChar c l.reverse with
  | none => none
  | some i => some (l.length - 1 - i)

/-! ### Categorisation (`TrustedAccountValidator.category_patterns`,
`_categorize_account`, trusted_accounts.py lines 41-65 and 363-372) -/

/-- The ordered category keyword table from `__init__` (dict insertion
order is the iteration order used by `_categorize_account`). -/
def category_patterns : List (String × List String) :=
  [("DeFi Protocol",
    ["exchange", "protocol", "finance", "lending", "swap", "dex",
     "yield", "jupiter", "raydium", "orca", "kamino", "meteora",
     "drift", "solend", "marinade", "jito", "saber", "sunny"]),
   ("NFT/Gaming",
    ["nft", "mad", "magic", "bears", "ape", "fox", "backpack",
     "tensor", "lifinity", "degen", "okay", "famous", "cets"]),
   ("Infrastructure",
    ["solana", "phantom", "explorer", "wallet", "labs", "network",
     "wormhole", "helium", "pyth", "solflare", "beach", "fm"]),
   ("Media/Community",
    ["media", "wordcel", "superteam", "dao", "community", "stellar",
     "bunkr", "candy", "bridge", "tourism", "meme", "truts"]),
   ("Key Opinion Leader",
    ["aeyakovenko", "rajgokal", "vinnylingham", "tonyguoga", "austin_federa"]),
   ("Gaming/Metaverse",
    ["staratlas", "grape", "star", "atlas", "gaming", "metaverse"])]

/-- Embedding of `_categorize_account`: lowercase the handle, return the first category
whose keyword list has a member occurring as a substring, else `"Other"`. -/
def categorize_account (username : String) : String :=
  let u := strLower username
  match category_patterns.find? (fun p => p.2.any (fun kw => strContains u kw)) with
  | some p => p.1
  | none => "Other"

/-! ### Validation strength (`_calculate_validation_strength`,
trusted_accounts.py lines 341-361) -/

/-- Embedding of `_calculate_validation_strength`: base score from the follower count
(max 60), category-diversity bonus (max 25), high-value category bonus
(+10 for a Key Opinion Leader, +5 for Infrastructure), capped at 100.
`categories` is the `follower_categories` dict as an association list. -/
def calculate_validation_strength (follower_count : Nat)
    (categories : List (String × Nat)) : Nat :=
  if follower_count = 0 then 0
  else
    let base_score := min (follower_count * 15) 60
    let diversity_bonus := min (categories.length * 5) 25
    let high_value_bonus :=
      (if categories.any (fun p => p.1 == "Key Opinion Leader") then 10 else 0)
      + (if categories.any (fun p => p.1 == "Infrastructure") then 5 else 0)
    min (base_score + diversity_bonus + high_value_bonus) 100

/-! ### Trust score (`_calculate_trust_score`, trusted_accounts.py 374-429) -/

/-- One entry of the `trusted_followers` list built during validation. -/
structure TrustedFollower where
  username : String
  user_id : String
  name : String
  category : String
deriving Repr, DecidableEq

/-- The `trust_score` dict (the empty-input branch of the source omits the
`category_scores`/`max_possible` keys; they are `[]`/`0` here). -/
structure TrustScore where
  overall_score : Rat
  category_scores : List (String × Nat)
  trust_level : String
  weighted_score : Nat
  max_possible : Nat
deriving Repr, DecidableEq

/-- The fixed category weight table of `_calculate_trust_score`. -/
def category_weights : List (String × Nat) :=
  [("Key Opinion Leader", 30), ("Infrastructure", 25), ("DeFi Protocol", 20),
   ("NFT/Gaming", 15), ("Gaming/Metaverse", 12), ("Media/Community", 10),
   ("Other", 5)]

/-- Embedding of `category_weights.get(category, 5)`. -/
def weightOf (c : String) : Nat :=
  ((category_weights.find? (fun p => p.1 == c)).map Prod.snd).getD 5

/-- Add `w` to key `c` of an association-list counter (Python
`d[c] = d.get(c, 0) + w`, insertion order preserved). -/
def bumpWeight (cats : List (String × Nat)) (c : String) (w : Nat) :
    List (String × Nat) :=
  if cats.any (fun p => p.1 == c) then
    cats.map (fun p => if p.1 == c then (p.1, p.2 + w) else p)
  else cats ++ [(c, w)]

/-- Python `round(q, 1)` over `ℚ` (see header note on tie-breaking). -/
def round1 (q : Rat) : Rat := ((round (q * 10) : Int) : Rat) / 10

/-- Embedding of `_calculate_trust_score`: weighted sum over the per-follower category
weights, normalised against `len * max(weights)`, with the five-label
threshold ladder; the empty input short-circuits to `Unverified`. -/
def calculate_trust_score (trusted_followers : List TrustedFollower) : TrustScore :=
  if trusted_followers.isEmpty then
    { overall_score := 0, category_scores := [], trust_level := "Unverified",
      weighted_score := 0, max_possible := 0 }
  else
    let total_weighted_score :=
      trusted_followers.foldl (fun acc f => acc + weightOf f.category) 0
    let category_scores :=
      trusted_followers.foldl (fun acc f => bumpWeight acc f.category (weightOf f.category)) []
    let maxW := (category_weights.map Prod.snd).foldl max 0
    let max_possible_score := trusted_followers.length * maxW
    let normalized_score : Rat :=
      if 0 < max_possible_score then
        min ((total_weighted_score : Rat) / (max_possible_score : Rat) * 100) 100
      else 0
    let trust_level :=
      if 80 ≤ normalized_score then "Highly Trusted"
      else if 65 ≤ normalized_score then "Well Trusted"
      else if 45 ≤ normalized_score then "Moderately Trusted"
      else if 25 ≤ normalized_score then "Lightly Trusted"
      else "Minimally Trusted"
    { overall_score := round1 normalized_score,
      category_scores := category_scores,
      trust_level := trust_level,
      weighted_score := total_weighted_score,
      max_possible := max_possible_score }

/-! ### Trust list parsing (`load_trusted_accounts`,
trusted_accounts.py lines 67-120) -/

/-- Fuel-based scanner behind `extractQuoted` (structural recursion on the
fuel so that the kernel can evaluate it; every recursive call consumes at
least one character, so fuel equal to the input length never runs out). -/
def extractQuotedAux : Nat → List Char → List (List Char)
  | _, [] => []
  | 0, _ :: _ => []
  | fuel + 1, '"' :: rest =>
    let tok := rest.takeWhile (fun c => c != '"')
    match rest.drop tok.length with
    | '"' :: tail =>
        if tok.isEmpty then extractQuotedAux fuel rest
        else tok :: extractQuotedAux fuel tail
    | _ => []
  | fuel + 1, _ :: rest => extractQuotedAux fuel rest

/-- All tokens matched by the regex `"([^"]+)"` scanned left to right,
non-overlapping (Python `re.findall`). -/
def extractQuoted (l : List Char) : List (List Char) :=
  extractQuotedAux l.length l

/-- The pure part of `load_trusted_accounts` applied to the fetched
document text: slice from the first `[` to the last `]` (the `rfind` miss
makes the slice end at 0, exactly as `content[start:0]` would), extract the
double-quoted tokens of the slice, strip each and drop empties.  `none`
models the `return False` paths (no `[`, or no surviving username). -/
def load_trusted_accounts (content : String) : Option (List String) :=
  let cs := content.toList
  match findIdxChar '[' cs with
  | none => none
  | some start_idx =>
    let end_idx := match rfindIdxChar ']' cs with
      | some r => r + 1
      | none => 0
    let list_content := (cs.take end_idx).drop start_idx
    let usernames := (extractQuoted list_content).map (fun t => String.mk t)
    let trusted_accounts := (usernames.map strTrim).filter (fun u => !u.isEmpty)
    if trusted_accounts.isEmpty then none else some trusted_accounts

/-! ### Identity resolution (`resolve_usernames_to_ids`,
trusted_accounts.py lines 130-211) -/

/-- Validator session state (the instance fields of
`TrustedAccountValidator` that the modelled methods read or write).
`trusted_user_ids` is the `username.lower() -> user_id` dict as an
association list. -/
structure ValidatorState where
  trusted_accounts : List String
  trusted_user_ids : List (String × String)
  api_calls_made : Nat
  max_api_calls : Nat
deriving Repr, DecidableEq

/-- Outcome of one `client.get_users` batch call: normal return (resolved
pairs as the API reports them plus per-item errors), a
`tweepy.TooManyRequests` exception, or any other exception. -/
inductive BatchOutcome where
  | success (resolved : List (String × String)) (failed : List String)
  | rateLimited
  | otherError
deriving Repr, DecidableEq

/-- Observable trace of one resolution pass: batch indices attempted (in
order), sleeps performed (in tenths of a second: `11` is the inter-batch
throttle `time.sleep(1.1)`, `9000` is the rate-limit back-off
`time.sleep(900)`), API-call counter increments, accumulated
`failed_usernames`, and the `resolved_ids` dict. -/
structure ResolveTrace where
  attempts : List Nat
  sleeps : List Nat
  api_calls : Nat
  failed : List String
  resolved : List (String × String)
deriving Repr, DecidableEq

/-- One assignment of the resolution loop, recording one returned user
into the dict under its lowercased handle. -/
def upsertId (m : List (String × String)) (k v : String) : List (String × String) :=
  if m.any (fun p => p.1 == k) then
    m.map (fun p => if p.1 == k then (p.1, v) else p)
  else m ++ [(k, v)]

/-- Record every user of a batch response into `resolved_ids`. -/
def upsertAll (m : List (String × String)) (kvs : List (String × String)) :
    List (String × String) :=
  kvs.foldl (fun acc kv => upsertId acc (strLower kv.1) kv.2) m

/-- Fuel-based splitter behind `chunksOf` (each step drops at least one
element, so fuel equal to the input length never runs out). -/
def chunksOfAux (n : Nat) : Nat → List String → List (List String)
  | _, [] => []
  | 0, a :: l => [a :: l]
  | fuel + 1, a :: l =>
      match n with
      | 0 => [a :: l]
      | m + 1 => (a :: l).take (m + 1) :: chunksOfAux n fuel ((a :: l).drop (m + 1))

/-- Slicing of the account list into consecutive batches, as the stride-
indexed `range` loop of the source does
(the source always calls this with a positive batch size). -/
def chunksOf (n : Nat) (l : List String) : List (List String) :=
  chunksOfAux n l.length l

/-- The batch loop of `resolve_usernames_to_ids`.  On `success` the call
counter is bumped, resolved pairs and per-item failures are recorded, and
the inter-batch throttle sleeps when more batches remain; on
`rateLimited` the code sleeps 900 s and `continue`s to the NEXT batch; on
any other exception the whole batch is appended to `failed_usernames`. -/
def resolveLoop (env : Nat → BatchOutcome) (total : Nat) :
    List (List String) → Nat → ResolveTrace → ResolveTrace
  | [], _, acc => acc
  | b :: rest, idx, acc =>
    match env idx with
    | .success res fail =>
        resolveLoop env total rest (idx + 1)
          { acc with
            attempts := acc.attempts ++ [idx],
            api_calls := acc.api_calls + 1,
            resolved := upsertAll acc.resolved res,
            failed := acc.failed ++ fail,
            sleeps := acc.sleeps ++ (if idx + 1 < total then [11] else []) }
    | .rateLimited =>
        resolveLoop env total rest (idx + 1)
          { acc with attempts := acc.attempts ++ [idx],
                     sleeps := acc.sleeps ++ [9000] }
    | .otherError =>
        resolveLoop env total rest (idx + 1)
          { acc with attempts := acc.attempts ++ [idx],
                     failed := acc.failed ++ b }

/-- Embedding of `resolve_usernames_to_ids`: a valid cache short-circuits the batch
loop entirely (file reading and the 24 h staleness check are collapsed
into the `cache` argument); otherwise the batch loop runs and the session
state takes over the resolved dict and the consumed API calls.  The
returned `Bool` is `len(resolved) > 0`. -/
def resolve_usernames_to_ids (st : ValidatorState)
    (cache : Option (List (String × String))) (env : Nat → BatchOutcome)
    (max_batch_size : Nat) : ValidatorState × Bool × ResolveTrace :=
  match cache with
  | some ids =>
      ({ st with trusted_user_ids := ids }, !ids.isEmpty,
       { attempts := [], sleeps := [], api_calls := 0, failed := [], resolved := [] })
  | none =>
      let batches := chunksOf max_batch_size st.trusted_accounts
      let tr := resolveLoop env batches.length batches 0
        { attempts := [], sleeps := [], api_calls := 0, failed := [], resolved := [] }
      ({ st with trusted_user_ids := tr.resolved,
                 api_calls_made := st.api_calls_made + tr.api_calls },
       !tr.resolved.isEmpty, tr)

/-! ### Follower check (`check_trusted_followers`,
trusted_accounts.py lines 213-339, and `_empty_validation_result`,
lines 475-496) -/

/-- One user record delivered by the follower pagination. -/
structure FollowerInfo where
  username : String
  id : String
  name : String
deriving Repr, DecidableEq

/-- One step of iterating `tweepy.Paginator(...).flatten(...)`: either the
generator yields the next follower, or it raises.  After an error event
nothing further is delivered. -/
inductive FetchEvent where
  | item (f : FollowerInfo)
  | errForbidden
  | errNotFound
  | errOther (msg : String)
deriving Repr, DecidableEq

/-- The error message `check_trusted_followers` turns each exception into. -/
def errMsg : FetchEvent → Option String
  | .item _ => none
  | .errForbidden => some "Target account is private"
  | .errNotFound => some "Target account not found"
  | .errOther m => some ("Error checking followers: " ++ m)

/-- The flatten cap: pagination stops consuming after `n` yielded items, so an
exception hiding behind the cap is never raised. -/
def capEvents : Nat → List FetchEvent → List FetchEvent
  | _, [] => []
  | 0, _ :: _ => []
  | n + 1, .item f :: rest => .item f :: capEvents n rest
  | _ + 1, e :: _ => [e]

/-- Mutable state of the pagination loop: the session call counter
(`self.api_calls_made`), the per-validation counter
(`the api_calls_made entry of validation_details`), `followers_checked`, the
`trusted_followers` list and the `follower_categories` dict. -/
structure LoopState where
  api_calls_made : Nat
  local_calls : Nat
  followers_checked : Nat
  trusted : List TrustedFollower
  cats : List (String × Nat)
deriving Repr, DecidableEq

/-- One category-counter bump of the follower loop. -/
def bumpCategory (cats : List (String × Nat)) (c : String) : List (String × Nat) :=
  bumpWeight cats c 1

/-- Body of the `if followers_page:` block: examine one delivered
follower, recording it when its lowercased handle is a key of
`trusted_user_ids`.  Leaves both call counters untouched. -/
def processItem (trusted_user_ids : List (String × String)) (f : FollowerInfo)
    (ls : LoopState) : LoopState :=
  let follower_username := strLower f.username
  if trusted_user_ids.any (fun p => p.1 == follower_username) then
    let category := categorize_account f.username
    { ls with followers_checked := ls.followers_checked + 1,
              trusted := ls.trusted ++
                [{ username := f.username, user_id := f.id,
                   name := f.name, category := category }],
              cats := bumpCategory ls.cats category }
  else { ls with followers_checked := ls.followers_checked + 1 }

/-- Result of the pagination loop: normal or broken-by-budget completion
(`done`), or an exception escaping to the `except` arms (`errored`; the
session counter increments made so far are kept in the carried state). -/
inductive LoopResult where
  | done (ls : LoopState)
  | errored (ls : LoopState) (msg : String)
deriving Repr, DecidableEq

/-- The `for followers_page in ... .flatten(...)` loop.  Each yielded
follower first bumps both call counters, then the budget check
`self.api_calls_made >= self.max_api_calls` breaks (skipping even that
examination of even that follower), else the follower is processed. -/
def followerLoop (trusted_user_ids : List (String × String)) (max_api_calls : Nat) :
    List FetchEvent → LoopState → LoopResult
  | [], ls => .done ls
  | .item f :: rest, ls =>
      let ls1 := { ls with api_calls_made := ls.api_calls_made + 1,
                           local_calls := ls.local_calls + 1 }
      if max_api_calls ≤ ls1.api_calls_made then .done ls1
      else followerLoop trusted_user_ids max_api_calls rest (processItem trusted_user_ids f ls1)
  | e :: _, ls =>
      .errored ls ((errMsg e).getD "")

/-- Everything the result dict of the source carries that the claims mention.
`error` is `the error entry of validation_details` (present on the
`_empty_validation_result` paths only); `checked_accounts` is
`the checked_accounts entry of validation_details`; `follower_categories` is
`the follower_categories entry of validation_details`. -/
structure ValidationResult where
  is_validated : Bool
  trusted_follower_count : Nat
  min_required : Nat
  validation_strength : Nat
  trusted_followers : List TrustedFollower
  error : Option String
  checked_accounts : Nat
  follower_categories : List (String × Nat)
  trust_score : TrustScore
  api_calls_used : Nat
deriving Repr, DecidableEq

/-- Embedding of `_empty_validation_result(error_message)`. -/
def empty_validation_result (error_message : String) : ValidationResult :=
  { is_validated := false,
    trusted_follower_count := 0,
    min_required := 2,
    validation_strength := 0,
    trusted_followers := [],
    error := some error_message,
    checked_accounts := 0,
    follower_categories := [],
    trust_score := { overall_score := 0, category_scores := [],
                     trust_level := "Unverified", weighted_score := 0,
                     max_possible := 0 },
    api_calls_used := 0 }

/-- The result dict assembled at the end of a non-error validation run
(trusted_accounts.py lines 302-330). -/
def success_result (min_trusted_followers : Nat) (ls : LoopState) : ValidationResult :=
  { is_validated := decide (min_trusted_followers ≤ ls.trusted.length),
    trusted_follower_count := ls.trusted.length,
    min_required := min_trusted_followers,
    validation_strength := calculate_validation_strength ls.trusted.length ls.cats,
    trusted_followers := ls.trusted,
    error := none,
    checked_accounts := ls.followers_checked,
    follower_categories := ls.cats,
    trust_score := calculate_trust_score ls.trusted,
    api_calls_used := ls.local_calls }

/-- Lines 232-335 of `check_trusted_followers`, entered with the session
state `st1` left by the (possibly skipped) lazy resolution: the hard
budget gate, then the pagination loop over at most 1000 delivered
followers with its three `except` arms, then metric computation. -/
def checkFollowersBody (st1 : ValidatorState) (events : List FetchEvent)
    (min_trusted_followers : Nat) : ValidatorState × ValidationResult :=
  if st1.max_api_calls ≤ st1.api_calls_made then
    (st1, empty_validation_result "API call limit reached")
  else
    match followerLoop st1.trusted_user_ids st1.max_api_calls (capEvents 1000 events)
        { api_calls_made := st1.api_calls_made, local_calls := 0,
          followers_checked := 0, trusted := [], cats := [] } with
    | .errored ls msg =>
        ({ st1 with api_calls_made := ls.api_calls_made }, empty_validation_result msg)
    | .done ls =>
        ({ st1 with api_calls_made := ls.api_calls_made },
         success_result min_trusted_followers ls)

/-- Embedding of `check_trusted_followers`: lazily resolve the trusted-ID dict when it
is empty (consuming the API calls of the resolution), then the budget gate and
the pagination/scoring body.  Returns the updated session state together
with the verdict dict.  Every failure mode is a returned verdict, never a
propagated exception (the source catches them all). -/
def check_trusted_followers (st : ValidatorState)
    (cache : Option (List (String × String))) (env : Nat → BatchOutcome)
    (events : List FetchEvent) (min_trusted_followers : Nat) :
    ValidatorState × ValidationResult :=
  if st.trusted_user_ids.isEmpty then
    let r := resolve_usernames_to_ids st cache env 100
    if r.2.1 = false then
      (r.1, empty_validation_result "Failed to resolve trusted accounts")
    else checkFollowersBody r.1 events min_trusted_followers
  else checkFollowersBody st events min_trusted_followers

/-! ### Integration bridge (`_integrate_trust_scores`,
trust_integration.py lines 147-199) -/

/-- The `overall_scores` section of the result dict of the base analyzer (the
fields the bridge touches). -/
structure OverallScores where
  credibility_score : Rat
  trust_boost_applied : Option Rat
  trust_enhanced : Bool
deriving Repr, DecidableEq

/-- The `risk_assessment` section. -/
structure RiskAssessment where
  authenticity_score : Rat
  risk_factors : List String
deriving Repr, DecidableEq

/-- The `network_influence` section. -/
structure NetworkInfluence where
  influence_score : Rat
  trust_tier : Option String
deriving Repr, DecidableEq

/-- The scorecard produced by the external analyzer; each section is
optional because the bridge guards on key presence. -/
structure AnalysisResults where
  overall_scores : Option OverallScores
  risk_assessment : Option RiskAssessment
  network_influence : Option NetworkInfluence
deriving Repr, DecidableEq

/-- The policy constant 0.3 (trust_integration.py line 38). -/
def trust_boost_factor : Rat := 3 / 10

/-- The risk-factor annotation applied when the trust level is high. -/
def mitigateRiskFactors (l : List String) : List String :=
  l.map (fun factor => "(Mitigated by trust validation) " ++ factor)

/-- Embedding of `_integrate_trust_scores`: unchanged scorecard unless the verdict is
validated; otherwise one `trust_boost` scalar boosts the three numeric
fields with multipliers 100/50/30 (each stored rounded to one decimal),
and for a `Highly Trusted`/`Well Trusted` level every (existing)
risk-factor string is prefixed rather than removed. -/
def integrate_trust_scores (analysis_results : AnalysisResults)
    (trust_results : ValidationResult) : AnalysisResults :=
  if trust_results.is_validated = false then analysis_results
  else
    let trust_boost : Rat :=
      ((trust_results.validation_strength : Rat) / 100) * trust_boost_factor
    let trust_level := trust_results.trust_score.trust_level
    let ar1 :=
      match analysis_results.overall_scores with
      | none => analysis_results
      | some os =>
          let os1 : OverallScores :=
            { credibility_score := round1 (min (os.credibility_score + trust_boost * 100) 100),
              trust_boost_applied := some (round1 (trust_boost * 100)),
              trust_enhanced := true }
          { analysis_results with overall_scores := some os1 }
    let ar2 :=
      match ar1.risk_assessment with
      | none => ar1
      | some ra =>
          let ra1 : RiskAssessment :=
            { authenticity_score := round1 (min (ra.authenticity_score + trust_boost * 50) 100),
              risk_factors :=
                if trust_level = "Highly Trusted" ∨ trust_level = "Well Trusted" then
                  if ra.risk_factors.isEmpty then ra.risk_factors
                  else mitigateRiskFactors ra.risk_factors
                else ra.risk_factors }
          { ar1 with risk_assessment := some ra1 }
    let ar3 :=
      match ar2.network_influence with
      | none => ar2
      | some ni =>
          let ni1 : NetworkInfluence :=
            { influence_score := round1 (min (ni.influence_score + trust_boost * 30) 100),
              trust_tier := some trust_level }
          { ar2 with network_influence := some ni1 }
    ar3

/-! ### Helpers used to state the resolution-pass theorems -/

/-- The list `[s, s+1, ..., s+n-1]` of batch indices a pass visits. -/
def idxList (s : Nat) : Nat → List Nat
  | 0 => []
  | n + 1 => s :: idxList (s + 1) n

/-- Pair every element with its batch index, starting at `s`. -/
def enumFromL (s : Nat) : List (List String) → List (Nat × List String)
  | [] => []
  | a :: l => (s, a) :: enumFromL (s + 1) l

/-- What batch `idx` (content `b`) contributes to `failed_usernames`:
its per-item errors on success, nothing on a rate limit (the batch is
skipped silently), the whole batch on any other exception. -/
def batchFailedOf (env : Nat → BatchOutcome) (idx : Nat) (b : List String) :
    List String :=
  match env idx with
  | .success _ fail => fail
  | .rateLimited => []
  | .otherError => b

/-- What batch `idx` contributes to the sleep trace: the 1.1 s inter-batch
throttle when more batches remain on success, the fixed 900 s back-off on
a rate limit, nothing on another exception. -/
def batchSleepOf (env : Nat → BatchOutcome) (total idx : Nat) : List Nat :=
  match env idx with
  | .success _ _ => if idx + 1 < total then [11] else []
  | .rateLimited => [9000]
  | .otherError => []

/-- What batch `idx` contributes to the API-call counter: the counter is
bumped only after a non-raising `get_users` call. -/
def batchApiOf (env : Nat → BatchOutcome) (idx : Nat) : Nat :=
  match env idx with
  | .success _ _ => 1
  | .rateLimited => 0
  | .otherError => 0

/-- What batch `p.1` contributes to `resolved_ids`. -/
def resolvedStep (env : Nat → BatchOutcome) (m : List (String × String))
    (p : Nat × List String) : List (String × String) :=
  match env p.1 with
  | .success res _ => upsertAll m res
  | .rateLimited => m
  | .otherError => m

/-! ### Concrete fixtures for the counterexamples and witnesses -/

/-- Scenario C session state: trusted-handle dict already resolved (keys
are lowercased by the source when stored), fresh call counter, default
session budget 50. -/
def scenarioC_state : ValidatorState :=
  { trusted_accounts := [],
    trusted_user_ids := [("solana", "100"), ("jupiterexchange", "200")],
    api_calls_made := 0, max_api_calls := 50 }

/-- Scenario C follower delivery: `["solana", "alice", "JupiterExchange"]`
in platform order. -/
def scenarioC_followers : List FollowerInfo :=
  [{ username := "solana", id := "100", name := "Solana" },
   { username := "alice", id := "7", name := "Alice" },
   { username := "JupiterExchange", id := "200", name := "Jupiter" }]

/-- A session state with a populated trusted dict whose call counter has
already reached the budget. -/
def exhausted_populated_state : ValidatorState :=
  { trusted_accounts := [], trusted_user_ids := [("solana", "100")],
    api_calls_made := 20, max_api_calls := 20 }

/-- A resolution environment that is never consulted (the fixtures above
have a populated trusted dict, so `check_trusted_followers` skips
resolution). -/
def envUnused : Nat → BatchOutcome := fun _ => .otherError

/-- Session state whose call counter has already reached the budget but
whose trusted dict is still empty, forcing the lazy resolution path. -/
def exhausted_state : ValidatorState :=
  { trusted_accounts := ["alice"], trusted_user_ids := [],
    api_calls_made := 5, max_api_calls := 5 }

/-- A resolution environment whose every batch succeeds. -/
def envResolves : Nat → BatchOutcome := fun _ => .success [("alice", "1")] []

/-- Two-account session used to exercise the rate-limit arm with a batch
size of 1: batch 0 is rate limited, batch 1 succeeds. -/
def rateLimited_state : ValidatorState :=
  { trusted_accounts := ["alice", "bob"], trusted_user_ids := [],
    api_calls_made := 0, max_api_calls := 50 }

/-- Environment for `rateLimited_state`. -/
def envRateLimit : Nat → BatchOutcome :=
  fun i => if i = 0 then .rateLimited else .success [("bob", "2")] []

/-- Scorecard whose credibility has more than one decimal digit of
headroom, exposing the per-field rounding of the bridge. -/
def scorecard_fix : AnalysisResults :=
  { overall_scores := some
      { credibility_score := 1 / 20, trust_boost_applied := none,
        trust_enhanced := false },
    risk_assessment := some
      { authenticity_score := 0, risk_factors := ["low account age"] },
    network_influence := some
      { influence_score := 0, trust_tier := none } }

/-- A validated verdict with `validation_strength = 45` and a
`Well Trusted` level (exactly what Scenario C produces). -/
def verdict_fix : ValidationResult :=
  { is_validated := true, trusted_follower_count := 2, min_required := 2,
    validation_strength := 45,
    trusted_followers := [], error := none, checked_accounts := 3,
    follower_categories := [("Infrastructure", 1), ("DeFi Protocol", 1)],
    trust_score := { overall_score := 75, category_scores := [],
                     trust_level := "Well Trusted", weighted_score := 45,
                     max_possible := 60 },
    api_calls_used := 3 }

/-! ### Lemmas about the pagination loop -/

theorem processItem_api_calls_made (tids : List (String × String))
    (f : FollowerInfo) (ls : LoopState) :
    (processItem tids f ls).api_calls_made = ls.api_calls_made := by
  simp only [processItem]
  split <;> rfl

theorem processItem_local_calls (tids : List (String × String))
    (f : FollowerInfo) (ls : LoopState) :
    (processItem tids f ls).local_calls = ls.local_calls := by
  simp only [processItem]
  split <;> rfl

/-- On the budget-unexhausted side, a completed loop has spent at most the
remaining budget in per-validation calls. -/
theorem followerLoop_done_local_le (tids : List (String × String)) (maxC : Nat) :
    ∀ (evs : List FetchEvent) (ls ls' : LoopState),
    ls.api_calls_made < maxC →
    followerLoop tids maxC evs ls = .done ls' →
    ls'.local_calls ≤ ls.local_calls + (maxC - ls.api_calls_made) := by
  intro evs
  induction evs with
  | nil =>
    intro ls ls' _ hl
    simp only [followerLoop, LoopResult.done.injEq] at hl
    subst hl
    omega
  | cons e rest ih =>
    intro ls ls' h hl
    cases e with
    | item f =>
      simp only [followerLoop] at hl
      by_cases hb : maxC ≤ ls.api_calls_made + 1
      · rw [if_pos hb] at hl
        simp only [LoopResult.done.injEq] at hl
        subst hl
        simp only
        omega
      · rw [if_neg hb] at hl
        have h2 := ih _ _ ?_ hl
        · rw [processItem_local_calls, processItem_api_calls_made] at h2
          simp only at h2
          omega
        · rw [processItem_api_calls_made]
          simp only
          omega
    | errForbidden => simp [followerLoop] at hl
    | errNotFound => simp [followerLoop] at hl
    | errOther m => simp [followerLoop] at hl

/-- Over a pure-item delivery the loop completes without error, and the
per-validation call counter grows by exactly one per delivered follower
until the session budget is reached: `min (#followers) (budget left)`. -/
theorem followerLoop_items (tids : List (String × String)) (maxC : Nat) :
    ∀ (fs : List FollowerInfo) (ls : LoopState),
    ls.api_calls_made < maxC →
    ∃ ls', followerLoop tids maxC (fs.map .item) ls = .done ls'
      ∧ ls'.local_calls = ls.local_calls + min fs.length (maxC - ls.api_calls_made) := by
  intro fs
  induction fs with
  | nil =>
    intro ls h
    exact ⟨ls, by simp [followerLoop], by simp⟩
  | cons f rest ih =>
    intro ls h
    by_cases hb : maxC ≤ ls.api_calls_made + 1
    · refine ⟨{ ls with api_calls_made := ls.api_calls_made + 1,
                        local_calls := ls.local_calls + 1 }, ?_, ?_⟩
      · simp only [List.map_cons, followerLoop, if_pos hb]
      · show ls.local_calls + 1
          = ls.local_calls + min (f :: rest).length (maxC - ls.api_calls_made)
        simp only [List.length_cons]
        omega
    · obtain ⟨ls', hl, hloc⟩ := ih (processItem tids f
        { ls with api_calls_made := ls.api_calls_made + 1,
                  local_calls := ls.local_calls + 1 })
        (by rw [processItem_api_calls_made]
            show ls.api_calls_made + 1 < maxC
            omega)
      refine ⟨ls', ?_, ?_⟩
      · simp only [List.map_cons, followerLoop, if_neg hb]
        exact hl
      · rw [hloc, processItem_local_calls, processItem_api_calls_made]
        show ls.local_calls + 1 + min rest.length (maxC - (ls.api_calls_made + 1))
          = ls.local_calls + min (f :: rest).length (maxC - ls.api_calls_made)
        simp only [List.length_cons]
        omega

/-- A delivery of `fs` followers and then a raised exception reaches the
`except` arm carrying the message of that exception, provided the budget
does not run out first; the session call counter keeps the increments of
the followers already delivered. -/
theorem followerLoop_err (tids : List (String × String)) (maxC : Nat) :
    ∀ (fs : List FollowerInfo) (e : FetchEvent) (msg : String) (ls : LoopState),
    errMsg e = some msg →
    ls.api_calls_made + fs.length < maxC →
    ∃ ls', followerLoop tids maxC (fs.map .item ++ [e]) ls = .errored ls' msg
      ∧ ls'.api_calls_made = ls.api_calls_made + fs.length := by
  intro fs
  induction fs with
  | nil =>
    intro e msg ls he _
    refine ⟨ls, ?_, by simp⟩
    cases e with
    | item f => simp [errMsg] at he
    | errForbidden =>
      simp only [errMsg, Option.some.injEq] at he
      subst he
      rfl
    | errNotFound =>
      simp only [errMsg, Option.some.injEq] at he
      subst he
      rfl
    | errOther m =>
      simp only [errMsg, Option.some.injEq] at he
      subst he
      rfl
  | cons f rest ih =>
    intro e msg ls he h
    simp only [List.length_cons] at h
    have hb : ¬ maxC ≤ ls.api_calls_made + 1 := by omega
    obtain ⟨ls', hl, hapi⟩ := ih e msg (processItem tids f
      { ls with api_calls_made := ls.api_calls_made + 1,
                local_calls := ls.local_calls + 1 })
      he
      (by rw [processItem_api_calls_made]
          show ls.api_calls_made + 1 + rest.length < maxC
          omega)
    refine ⟨ls', ?_, ?_⟩
    · simp only [List.map_cons, List.cons_append, followerLoop, if_neg hb]
      exact hl
    · rw [hapi, processItem_api_calls_made]
      show ls.api_calls_made + 1 + rest.length = ls.api_calls_made + (f :: rest).length
      simp only [List.length_cons]
      omega

/-- The flatten cap leaves a pure-item delivery within the cap unchanged. -/
theorem capEvents_items (fs : List FollowerInfo) :
    ∀ (n : Nat), fs.length ≤ n → capEvents n (fs.map .item) = fs.map .item := by
  induction fs with
  | nil => intro n _; cases n <;> rfl
  | cons f rest ih =>
    intro n h
    cases n with
    | zero => simp at h
    | succ m =>
      simp only [List.map_cons, capEvents]
      rw [ih m (by simpa using h)]

/-- The flatten cap leaves an item delivery ending in an exception
unchanged when the items fit strictly under the cap. -/
theorem capEvents_items_err (fs : List FollowerInfo) :
    ∀ (n : Nat) (e : FetchEvent), (errMsg e).isSome →
    fs.length < n → capEvents n (fs.map .item ++ [e]) = fs.map .item ++ [e] := by
  induction fs with
  | nil =>
    intro n e he h
    cases n with
    | zero => omega
    | succ m =>
      cases e with
      | item f => simp [errMsg] at he
      | errForbidden => rfl
      | errNotFound => rfl
      | errOther msg => rfl
  | cons f rest ih =>
    intro n e he h
    cases n with
    | zero => omega
    | succ m =>
      simp only [List.map_cons, List.cons_append, capEvents]
      rw [show (List.map FetchEvent.item rest).append [e] =
        List.map FetchEvent.item rest ++ [e] from rfl]
      rw [ih m e he (by simp only [List.length_cons] at h; omega)]

/-! ### Lemmas about `check_trusted_followers` -/

theorem resolve_max_api_calls (st : ValidatorState)
    (cache : Option (List (String × String))) (env : Nat → BatchOutcome)
    (bs : Nat) :
    (resolve_usernames_to_ids st cache env bs).1.max_api_calls = st.max_api_calls := by
  cases cache <;> rfl

theorem checkFollowersBody_used_le (st1 : ValidatorState)
    (events : List FetchEvent) (minr : Nat) :
    (checkFollowersBody st1 events minr).2.api_calls_used ≤ st1.max_api_calls := by
  unfold checkFollowersBody
  by_cases hb : st1.max_api_calls ≤ st1.api_calls_made
  · rw [if_pos hb]
    exact Nat.zero_le _
  · rw [if_neg hb]
    rcases hL : followerLoop st1.trusted_user_ids st1.max_api_calls
        (capEvents 1000 events)
        { api_calls_made := st1.api_calls_made, local_calls := 0,
          followers_checked := 0, trusted := [], cats := [] }
      with ⟨ls⟩ | ⟨ls, msg⟩
    · have h2 := followerLoop_done_local_le st1.trusted_user_ids st1.max_api_calls
        (capEvents 1000 events) _ ls (by simp only; omega) hL
      simp only at h2
      show ls.local_calls ≤ st1.max_api_calls
      omega
    · exact Nat.zero_le _

theorem check_populated (st : ValidatorState)
    (cache : Option (List (String × String))) (env : Nat → BatchOutcome)
    (events : List FetchEvent) (minr : Nat)
    (h : st.trusted_user_ids.isEmpty = false) :
    check_trusted_followers st cache env events minr
      = checkFollowersBody st events minr := by
  unfold check_trusted_followers
  rw [if_neg]
  simp [h]

theorem check_used_le (st : ValidatorState)
    (cache : Option (List (String × String))) (env : Nat → BatchOutcome)
    (events : List FetchEvent) (minr : Nat) :
    (check_trusted_followers st cache env events minr).2.api_calls_used
      ≤ st.max_api_calls := by
  simp only [check_trusted_followers]
  split
  · split
    · exact Nat.zero_le _
    · calc (checkFollowersBody (resolve_usernames_to_ids st cache env 100).1 events
            minr).2.api_calls_used
          ≤ (resolve_usernames_to_ids st cache env 100).1.max_api_calls :=
            checkFollowersBody_used_le _ _ _
        _ = st.max_api_calls := resolve_max_api_calls _ _ _ _
  · exact checkFollowersBody_used_le _ _ _

theorem check_budget_gate (st : ValidatorState)
    (cache : Option (List (String × String))) (env : Nat → BatchOutcome)
    (events : List FetchEvent) (minr : Nat)
    (hE : st.trusted_user_ids.isEmpty = false)
    (hb : st.max_api_calls ≤ st.api_calls_made) :
    check_trusted_followers st cache env events minr
      = (st, empty_validation_result "API call limit reached") := by
  rw [check_populated st cache env events minr hE]
  unfold checkFollowersBody
  rw [if_pos hb]

/-- Every verdict is either an `_empty_validation_result` or the success
dict built from the final loop state. -/
theorem check_cases (st : ValidatorState)
    (cache : Option (List (String × String))) (env : Nat → BatchOutcome)
    (events : List FetchEvent) (minr : Nat) :
    (∃ m, (check_trusted_followers st cache env events minr).2
        = empty_validation_result m)
    ∨ ∃ ls, (check_trusted_followers st cache env events minr).2
        = success_result minr ls := by
  simp only [check_trusted_followers, checkFollowersBody]
  split
  · split
    · exact Or.inl ⟨_, rfl⟩
    · split
      · exact Or.inl ⟨_, rfl⟩
      · split
        · exact Or.inl ⟨_, rfl⟩
        · exact Or.inr ⟨_, rfl⟩
  · split
    · exact Or.inl ⟨_, rfl⟩
    · split
      · exact Or.inl ⟨_, rfl⟩
      · exact Or.inr ⟨_, rfl⟩

/-! ### Lemmas about the resolution pass -/

/-- Full characterisation of one batch-loop run: every batch is attempted
exactly once, in index order, and the sleeps, API-call increments, failure
records and resolved dict are the concatenation (resp. fold) of the
per-batch contributions. -/
theorem resolveLoop_eq (env : Nat → BatchOutcome) (total : Nat) :
    ∀ (bs : List (List String)) (idx : Nat) (acc : ResolveTrace),
    resolveLoop env total bs idx acc =
      { attempts := acc.attempts ++ idxList idx bs.length,
        sleeps := acc.sleeps
          ++ ((idxList idx bs.length).map (batchSleepOf env total)).flatten,
        api_calls := acc.api_calls
          + ((idxList idx bs.length).map (batchApiOf env)).sum,
        failed := acc.failed
          ++ ((enumFromL idx bs).map (fun p => batchFailedOf env p.1 p.2)).flatten,
        resolved := (enumFromL idx bs).foldl (resolvedStep env) acc.resolved } := by
  intro bs
  induction bs with
  | nil =>
    intro idx acc
    simp [resolveLoop, idxList, enumFromL]
  | cons b rest ih =>
    intro idx acc
    simp only [resolveLoop]
    rcases h : env idx with ⟨res, fail⟩ | _ | _
    · simp [ih, idxList, enumFromL, batchSleepOf, batchApiOf, batchFailedOf,
        resolvedStep, h, List.append_assoc, Nat.add_assoc]
    · simp [ih, idxList, enumFromL, batchSleepOf, batchApiOf, batchFailedOf,
        resolvedStep, h, List.append_assoc, Nat.add_assoc]
    · simp [ih, idxList, enumFromL, batchSleepOf, batchApiOf, batchFailedOf,
        resolvedStep, h, List.append_assoc, Nat.add_assoc]

/-- Each index occurs at most once in `idxList` (in fact exactly once when
it lies in the covered range). -/
theorem idxList_count : ∀ (n s i : Nat),
    (idxList s n).count i = if s ≤ i ∧ i < s + n then 1 else 0 := by
  intro n
  induction n with
  | zero =>
    intro s i
    simp only [idxList, List.count_nil]
    split
    · omega
    · rfl
  | succ m ih =>
    intro s i
    simp only [idxList, List.count_cons, ih, beq_iff_eq]
    split_ifs <;> omega

/-! ### Claim theorems -/

/-- C1 (counterexample): with the trusted dict still empty and the session
counter already at the budget (`exhausted_state`: 5 of 5 calls used), the
validator does NOT return without issuing further API calls: the lazy
resolution pass runs first and issues a batch-lookup call (the session
counter ends at 6), and only then the budget gate returns the
"API call limit reached" verdict.  This falsifies the claim's
unconditional "returns immediately ... without issuing any further API
calls". -/
theorem C1_counterexample :
    (check_trusted_followers exhausted_state none envResolves [] 2).2.error
        = some "API call limit reached"
    ∧ (check_trusted_followers exhausted_state none envResolves [] 2).1.api_calls_made = 6
    ∧ ¬ ((check_trusted_followers exhausted_state none envResolves [] 2).1.api_calls_made
        = exhausted_state.api_calls_made) := by
  decide

/-- C1 (amended): (a) the per-validation `api_calls_used` field never
exceeds the configured budget `max_api_calls`, whatever the budget (in
particular 1, 5, 20 and 50) and whatever the session state, resolution
environment and follower delivery; (b) PROVIDED the trusted-ID dict is
already populated, a session counter at or past the budget makes the
validator return immediately with the error verdict
"API call limit reached", leaving the session state untouched (no API
call is issued). -/
theorem C1_budget_ceiling :
    (∀ (st : ValidatorState) (cache : Option (List (String × String)))
        (env : Nat → BatchOutcome) (events : List FetchEvent) (minr : Nat),
      (check_trusted_followers st cache env events minr).2.api_calls_used
        ≤ st.max_api_calls)
    ∧ (∀ (st : ValidatorState) (cache : Option (List (String × String)))
        (env : Nat → BatchOutcome) (events : List FetchEvent) (minr : Nat),
      st.trusted_user_ids.isEmpty = false →
      st.max_api_calls ≤ st.api_calls_made →
      check_trusted_followers st cache env events minr
        = (st, empty_validation_result "API call limit reached")) :=
  ⟨fun st cache env events minr => check_used_le st cache env events minr,
   fun st cache env events minr hE hb => check_budget_gate st cache env events minr hE hb⟩

/-- Witness for C1: at budget 20 with the counter already at 20 and a
populated dict, the validator returns the error verdict and the state
unchanged; and the ceiling holds concretely. -/
theorem C1_budget_ceiling_witness :
    check_trusted_followers exhausted_populated_state none envUnused [] 2
      = (exhausted_populated_state, empty_validation_result "API call limit reached") :=
  C1_budget_ceiling.2 exhausted_populated_state none envUnused [] 2 (by decide) (by decide)

/-- C2 (counterexample): the Scenario C delivery of three followers fits
in ONE page of the paginator (pages hold up to 1000 followers), yet the
verdict records `api_calls_used = 3` — the counter is incremented once
per individual follower examined, not once per page as the claim
states. -/
theorem C2_counterexample :
    (check_trusted_followers scenarioC_state none envUnused
        (scenarioC_followers.map .item) 2).2.api_calls_used = 3
    ∧ ¬ ((check_trusted_followers scenarioC_state none envUnused
        (scenarioC_followers.map .item) 2).2.api_calls_used = 1) := by
  decide

/-- C2 (amended): `api_calls_used` is incremented once per individual
follower delivered by the flattened pagination (not once per page): over
a pure-follower delivery it ends at exactly
`min (#followers delivered) (budget remaining)`; when the counter reaches
the budget mid-pagination the loop stops and scoring proceeds on the
partial data, yielding a verdict without an error. -/
theorem C2_per_follower_increment :
    ∀ (st : ValidatorState) (cache : Option (List (String × String)))
      (env : Nat → BatchOutcome) (fs : List FollowerInfo) (minr : Nat),
    st.trusted_user_ids.isEmpty = false →
    st.api_calls_made < st.max_api_calls →
    fs.length ≤ 1000 →
    (check_trusted_followers st cache env (fs.map .item) minr).2.api_calls_used
        = min fs.length (st.max_api_calls - st.api_calls_made)
    ∧ (check_trusted_followers st cache env (fs.map .item) minr).2.error = none := by
  intro st cache env fs minr hE hb hcap
  rw [check_populated st cache env _ minr hE]
  unfold checkFollowersBody
  rw [if_neg (by omega)]
  rw [capEvents_items fs 1000 hcap]
  obtain ⟨ls, hl, hloc⟩ := followerLoop_items st.trusted_user_ids st.max_api_calls fs
    { api_calls_made := st.api_calls_made, local_calls := 0,
      followers_checked := 0, trusted := [], cats := [] }
    (by show st.api_calls_made < st.max_api_calls; omega)
  rw [hl]
  refine ⟨?_, rfl⟩
  show ls.local_calls = min fs.length (st.max_api_calls - st.api_calls_made)
  rw [hloc]
  simp

/-- Witness for C2: Scenario C under budget 50 uses
`min 3 50 = 3` calls and carries no error. -/
theorem C2_per_follower_increment_witness :
    (check_trusted_followers scenarioC_state none envUnused
        (scenarioC_followers.map .item) 2).2.api_calls_used
      = min scenarioC_followers.length
          (scenarioC_state.max_api_calls - scenarioC_state.api_calls_made)
    ∧ (check_trusted_followers scenarioC_state none envUnused
        (scenarioC_followers.map .item) 2).2.error = none :=
  C2_per_follower_increment scenarioC_state none envUnused scenarioC_followers 2
    (by decide) (by decide) (by decide)

/-- C3: whenever a verdict carries no error and found at least one trusted
follower, its `validation_strength` equals
`min( min(count*15, 60) + min(#distinct categories * 5, 25)
      + (10 if a Key Opinion Leader is among them)
      + (5 if an Infrastructure account is among them), 100)`
computed from the very `trusted_follower_count` and
`follower_categories`; and Scenario C concretely: followers
`["solana", "alice", "JupiterExchange"]` against the trusted set
`{solana, jupiterexchange}` with `min_required = 2` give
`is_validated = true`, `trusted_follower_count = 2`,
`category_breakdown = {Infrastructure: 1, DeFi Protocol: 1}` and
`validation_strength = 30 + 10 + 5 = 45`. -/
theorem C3_validation_strength :
    (∀ (st : ValidatorState) (cache : Option (List (String × String)))
        (env : Nat → BatchOutcome) (events : List FetchEvent) (minr : Nat),
      (check_trusted_followers st cache env events minr).2.error = none →
      0 < (check_trusted_followers st cache env events minr).2.trusted_follower_count →
      (check_trusted_followers st cache env events minr).2.validation_strength
        = min (min ((check_trusted_followers st cache env events minr).2.trusted_follower_count * 15) 60
            + min ((check_trusted_followers st cache env events minr).2.follower_categories.length * 5) 25
            + ((if (check_trusted_followers st cache env events minr).2.follower_categories.any
                  (fun p => p.1 == "Key Opinion Leader") then 10 else 0)
              + (if (check_trusted_followers st cache env events minr).2.follower_categories.any
                  (fun p => p.1 == "Infrastructure") then 5 else 0))) 100)
    ∧ (check_trusted_followers scenarioC_state none envUnused
        (scenarioC_followers.map .item) 2).2.is_validated = true
    ∧ (check_trusted_followers scenarioC_state none envUnused
        (scenarioC_followers.map .item) 2).2.trusted_follower_count = 2
    ∧ (check_trusted_followers scenarioC_state none envUnused
        (scenarioC_followers.map .item) 2).2.follower_categories
        = [("Infrastructure", 1), ("DeFi Protocol", 1)]
    ∧ (check_trusted_followers scenarioC_state none envUnused
        (scenarioC_followers.map .item) 2).2.validation_strength = 45 := by
  refine ⟨?_, by decide, by decide, by decide, by decide⟩
  intro st cache env events minr herr hpos
  rcases check_cases st cache env events minr with ⟨m, hm⟩ | ⟨ls, hl⟩
  · rw [hm] at herr
    simp [empty_validation_result] at herr
  · rw [hl] at hpos ⊢
    have h0 : ls.trusted.length ≠ 0 := by
      simp only [success_result] at hpos
      omega
    simp [success_result, calculate_validation_strength, h0]

/-- Witness for C3: the general formula applied to the Scenario C run. -/
theorem C3_validation_strength_witness :
    (check_trusted_followers scenarioC_state none envUnused
        (scenarioC_followers.map .item) 2).2.validation_strength
      = min (min ((check_trusted_followers scenarioC_state none envUnused
            (scenarioC_followers.map .item) 2).2.trusted_follower_count * 15) 60
          + min ((check_trusted_followers scenarioC_state none envUnused
            (scenarioC_followers.map .item) 2).2.follower_categories.length * 5) 25
          + ((if (check_trusted_followers scenarioC_state none envUnused
                (scenarioC_followers.map .item) 2).2.follower_categories.any
                (fun p => p.1 == "Key Opinion Leader") then 10 else 0)
            + (if (check_trusted_followers scenarioC_state none envUnused
                (scenarioC_followers.map .item) 2).2.follower_categories.any
                (fun p => p.1 == "Infrastructure") then 5 else 0))) 100 :=
  C3_validation_strength.1 scenarioC_state none envUnused
    (scenarioC_followers.map .item) 2 (by decide) (by decide)

/-- C4 (counterexample): `load_trusted_accounts` does NOT deduplicate
case-insensitively: the document `["solana","SOLANA"]` parses to BOTH
handles, where the claimed case-insensitive deduplication would keep only
the first. -/
theorem C4_counterexample :
    load_trusted_accounts "[\"solana\",\"SOLANA\"]" = some ["solana", "SOLANA"]
    ∧ ¬ (load_trusted_accounts "[\"solana\",\"SOLANA\"]" = some ["solana"]) := by
  decide

/-- C4 (amended): the parser extracts all double-quoted tokens between the
first `[` and the last `]`, strips them, discards empty tokens and
preserves first-seen order, but performs NO deduplication (case-variant
duplicates are all kept).  Scenario A concretely: the garbage-framed
document parses to `["solana", "JupiterExchange", "random_user"]` in
order, categorised Infrastructure / DeFi Protocol / Other by the ordered
first-match keyword table. -/
theorem C4_parse_trust_list :
    load_trusted_accounts
        "garbage text [ \"solana\", \"JupiterExchange\", \"random_user\" ] trailing text"
      = some ["solana", "JupiterExchange", "random_user"]
    ∧ categorize_account "solana" = "Infrastructure"
    ∧ categorize_account "JupiterExchange" = "DeFi Protocol"
    ∧ categorize_account "random_user" = "Other"
    ∧ load_trusted_accounts "[\"solana\",\"SOLANA\"]" = some ["solana", "SOLANA"] := by
  decide

/-- C5 (counterexample): accounts `["alice", "bob"]` resolved with batch
size 1, where batch 0 is rate limited and batch 1 succeeds: the resolver
sleeps the 900 s back-off but then moves ON to batch 1 — batch 0 is
attempted exactly once, never the twice that "retries that same batch
exactly once" would require, and its handle is not even recorded as
failed. -/
theorem C5_counterexample :
    (resolve_usernames_to_ids rateLimited_state none envRateLimit 1).2.2.attempts = [0, 1]
    ∧ (resolve_usernames_to_ids rateLimited_state none envRateLimit 1).2.2.sleeps = [9000]
    ∧ ¬ (2 ≤ (resolve_usernames_to_ids rateLimited_state none envRateLimit 1).2.2.attempts.count 0)
    ∧ (resolve_usernames_to_ids rateLimited_state none envRateLimit 1).2.2.failed = [] := by
  decide

/-- C5 (amended): in a cache-miss resolution pass each batch is attempted
exactly once, in index order, with no retries whatsoever; a rate-limited
batch contributes exactly a 900 s sleep (`batchSleepOf` = `[9000]` tenths
of a second) and contributes nothing to `failed_usernames`
(`batchFailedOf` = `[]`) or to the resolved dict (`resolvedStep` leaves
it unchanged) — the loop simply proceeds to the next batch. -/
theorem C5_rate_limit_skips_batch :
    ∀ (st : ValidatorState) (env : Nat → BatchOutcome) (bsz : Nat),
    (resolve_usernames_to_ids st none env bsz).2.2.attempts
        = idxList 0 (chunksOf bsz st.trusted_accounts).length
    ∧ (∀ i, (resolve_usernames_to_ids st none env bsz).2.2.attempts.count i ≤ 1)
    ∧ (resolve_usernames_to_ids st none env bsz).2.2.sleeps
        = ((idxList 0 (chunksOf bsz st.trusted_accounts).length).map
            (batchSleepOf env (chunksOf bsz st.trusted_accounts).length)).flatten
    ∧ (resolve_usernames_to_ids st none env bsz).2.2.failed
        = ((enumFromL 0 (chunksOf bsz st.trusted_accounts)).map
            (fun p => batchFailedOf env p.1 p.2)).flatten
    ∧ (resolve_usernames_to_ids st none env bsz).2.2.resolved
        = (enumFromL 0 (chunksOf bsz st.trusted_accounts)).foldl (resolvedStep env) [] := by
  intro st env bsz
  have h := resolveLoop_eq env (chunksOf bsz st.trusted_accounts).length
    (chunksOf bsz st.trusted_accounts) 0
    { attempts := [], sleeps := [], api_calls := 0, failed := [], resolved := [] }
  have hA : (resolve_usernames_to_ids st none env bsz).2.2.attempts
      = idxList 0 (chunksOf bsz st.trusted_accounts).length := by
    simp only [resolve_usernames_to_ids]
    rw [h]
    simp
  refine ⟨hA, ?_, ?_, ?_, ?_⟩
  · intro i
    rw [hA, idxList_count]
    split <;> omega
  · simp only [resolve_usernames_to_ids]
    rw [h]
    simp
  · simp only [resolve_usernames_to_ids]
    rw [h]
    simp
  · simp only [resolve_usernames_to_ids]
    rw [h]

/-- C6: the trust-score calculator maps the empty follower list to
`overall_score = 0` with level `"Unverified"` (no division is attempted),
and `"Unverified"` is produced ONLY there: every non-empty follower list
gets one of the five graded levels, never `"Unverified"`. -/
theorem C6_unverified_only_when_empty :
    ((calculate_trust_score []).overall_score = 0
      ∧ (calculate_trust_score []).trust_level = "Unverified")
    ∧ ∀ (fs : List TrustedFollower), fs ≠ [] →
        (calculate_trust_score fs).trust_level ≠ "Unverified" := by
  refine ⟨⟨rfl, rfl⟩, ?_⟩
  intro fs hfs
  have ladder : ∀ (q : Rat),
      (if 80 ≤ q then "Highly Trusted"
       else if 65 ≤ q then "Well Trusted"
       else if 45 ≤ q then "Moderately Trusted"
       else if 25 ≤ q then "Lightly Trusted"
       else "Minimally Trusted") ≠ "Unverified" := by
    intro q
    repeat' split
    all_goals decide
  unfold calculate_trust_score
  rw [if_neg (by simpa using hfs)]
  exact ladder _

/-- Witness for C6: a single `Other`-category follower is labelled, and
the label is not `"Unverified"`. -/
theorem C6_unverified_only_when_empty_witness :
    (calculate_trust_score
        [{ username := "someone", user_id := "9", name := "", category := "Other" }]).trust_level
      ≠ "Unverified" :=
  C6_unverified_only_when_empty.2
    [{ username := "someone", user_id := "9", name := "", category := "Other" }]
    (by decide)

/-- C7: the integration bridge leaves a scorecard completely unchanged —
every numeric field and every risk-factor string included — whenever the
verdict has `is_validated = false`. -/
theorem C7_unvalidated_scorecard_unchanged :
    ∀ (ar : AnalysisResults) (v : ValidationResult),
    v.is_validated = false → integrate_trust_scores ar v = ar := by
  intro ar v h
  unfold integrate_trust_scores
  rw [if_pos h]

/-- Witness for C7: an error verdict (not validated) leaves the fixture
scorecard untouched. -/
theorem C7_unvalidated_scorecard_unchanged_witness :
    integrate_trust_scores scorecard_fix
        (empty_validation_result "Target account is private")
      = scorecard_fix :=
  C7_unvalidated_scorecard_unchanged scorecard_fix
    (empty_validation_result "Target account is private") rfl

/-- C8 (counterexample): on a scorecard with `credibility_score = 0.05`
and a validated verdict of strength 45, the bridge stores
`round(min(0.05 + 13.5, 100), 1) = 13.6`, not the exact value claimed,
`min(credibility + trust_boost*100, 100) = 13.55`: every boosted field is
rounded to one decimal before being stored. -/
theorem C8_counterexample :
    (integrate_trust_scores scorecard_fix verdict_fix).overall_scores
        = some { credibility_score := 68 / 5, trust_boost_applied := some (27 / 2),
                 trust_enhanced := true }
    ∧ ¬ ((68 : Rat) / 5
        = min ((1 : Rat) / 20 + ((45 : Rat) / 100 * trust_boost_factor) * 100) 100) := by
  constructor
  · simp only [integrate_trust_scores, scorecard_fix, verdict_fix, trust_boost_factor,
      round1]
    norm_num [round_eq]
  · rw [min_eq_left (by norm_num [trust_boost_factor])]
    norm_num [trust_boost_factor]

/-- C8 (amended): for a validated verdict the bridge computes the single
scalar `trust_boost = (validation_strength / 100) * 0.3` and stores, for
each of the three sections present in the scorecard,
`round1 (min (field + trust_boost * m, 100))` with the distinct
multipliers `m = 100 / 50 / 30` (credibility / authenticity / influence)
— that is, the claimed formulas with each stored value rounded to one
decimal — and when the trust level is `"Highly Trusted"` or
`"Well Trusted"` every existing risk-factor string is kept and prefixed
with `"(Mitigated by trust validation) "` rather than removed. -/
theorem C8_trust_boost_formulas :
    ∀ (ar : AnalysisResults) (v : ValidationResult)
      (os : OverallScores) (ra : RiskAssessment) (ni : NetworkInfluence),
    v.is_validated = true →
    ar.overall_scores = some os →
    ar.risk_assessment = some ra →
    ar.network_influence = some ni →
    (integrate_trust_scores ar v).overall_scores = some
      { credibility_score := round1 (min (os.credibility_score
          + ((v.validation_strength : Rat) / 100 * trust_boost_factor) * 100) 100),
        trust_boost_applied := some (round1
          (((v.validation_strength : Rat) / 100 * trust_boost_factor) * 100)),
        trust_enhanced := true }
    ∧ (integrate_trust_scores ar v).risk_assessment = some
      { authenticity_score := round1 (min (ra.authenticity_score
          + ((v.validation_strength : Rat) / 100 * trust_boost_factor) * 50) 100),
        risk_factors :=
          if v.trust_score.trust_level = "Highly Trusted"
              ∨ v.trust_score.trust_level = "Well Trusted" then
            mitigateRiskFactors ra.risk_factors
          else ra.risk_factors }
    ∧ (integrate_trust_scores ar v).network_influence = some
      { influence_score := round1 (min (ni.influence_score
          + ((v.validation_strength : Rat) / 100 * trust_boost_factor) * 30) 100),
        trust_tier := some v.trust_score.trust_level } := by
  intro ar v os ra ni hv hos hra hni
  cases ar with
  | mk aos ara ani =>
    dsimp only at hos hra hni
    subst hos
    subst hra
    subst hni
    unfold integrate_trust_scores
    rw [if_neg (by simp [hv])]
    refine ⟨rfl, ?_, rfl⟩
    dsimp only
    by_cases hL : (v.trust_score.trust_level = "Highly Trusted"
        ∨ v.trust_score.trust_level = "Well Trusted")
    · rw [if_pos hL, if_pos hL]
      by_cases hE : ra.risk_factors.isEmpty
      · rw [if_pos hE]
        have h0 : ra.risk_factors = [] := by simpa using hE
        rw [h0]
        rfl
      · rw [if_neg hE]
    · rw [if_neg hL, if_neg hL]

/-- Witness for C8: the formulas instantiated on the fixture scorecard
and the Scenario C verdict. -/
theorem C8_trust_boost_formulas_witness :
    (integrate_trust_scores scorecard_fix verdict_fix).overall_scores = some
      { credibility_score := round1 (min ((1 : Rat) / 20
          + (((45 : Nat) : Rat) / 100 * trust_boost_factor) * 100) 100),
        trust_boost_applied := some (round1
          ((((45 : Nat) : Rat) / 100 * trust_boost_factor) * 100)),
        trust_enhanced := true }
    ∧ (integrate_trust_scores scorecard_fix verdict_fix).risk_assessment = some
      { authenticity_score := round1 (min ((0 : Rat)
          + (((45 : Nat) : Rat) / 100 * trust_boost_factor) * 50) 100),
        risk_factors :=
          if ("Well Trusted" : String) = "Highly Trusted"
              ∨ ("Well Trusted" : String) = "Well Trusted" then
            mitigateRiskFactors ["low account age"]
          else ["low account age"] }
    ∧ (integrate_trust_scores scorecard_fix verdict_fix).network_influence = some
      { influence_score := round1 (min ((0 : Rat)
          + (((45 : Nat) : Rat) / 100 * trust_boost_factor) * 30) 100),
        trust_tier := some "Well Trusted" } :=
  C8_trust_boost_formulas scorecard_fix verdict_fix
    { credibility_score := 1 / 20, trust_boost_applied := none,
      trust_enhanced := false }
    { authenticity_score := 0, risk_factors := ["low account age"] }
    { influence_score := 0, trust_tier := none }
    rfl rfl rfl rfl

/-- C9: when the platform reports the target private (the `Forbidden`
exception raised during follower pagination, after any number of
followers already delivered within budget and cap), the validator RETURNS
the `_empty_validation_result` verdict — error string
"Target account is private", zero counts, zero strength, no followers,
not validated, level "Unverified".  The embedding of
`check_trusted_followers` is a total function into verdicts, so the
condition never escapes the validator boundary as an exception. -/
theorem C9_private_target_verdict :
    ∀ (st : ValidatorState) (cache : Option (List (String × String)))
      (env : Nat → BatchOutcome) (fs : List FollowerInfo) (minr : Nat),
    st.trusted_user_ids.isEmpty = false →
    st.api_calls_made + fs.length < st.max_api_calls →
    fs.length < 1000 →
    (check_trusted_followers st cache env (fs.map .item ++ [.errForbidden]) minr).2
        = empty_validation_result "Target account is private"
    ∧ (empty_validation_result "Target account is private").error
        = some "Target account is private"
    ∧ (empty_validation_result "Target account is private").trusted_follower_count = 0
    ∧ (empty_validation_result "Target account is private").validation_strength = 0
    ∧ (empty_validation_result "Target account is private").trusted_followers = []
    ∧ (empty_validation_result "Target account is private").is_validated = false
    ∧ (empty_validation_result "Target account is private").trust_score.trust_level
        = "Unverified" := by
  intro st cache env fs minr hE hb hcap
  refine ⟨?_, rfl, rfl, rfl, rfl, rfl, rfl⟩
  rw [check_populated st cache env _ minr hE]
  unfold checkFollowersBody
  rw [if_neg (by omega)]
  rw [capEvents_items_err fs 1000 .errForbidden rfl hcap]
  obtain ⟨ls, hl, _⟩ := followerLoop_err st.trusted_user_ids st.max_api_calls fs
    .errForbidden "Target account is private"
    { api_calls_made := st.api_calls_made, local_calls := 0,
      followers_checked := 0, trusted := [], cats := [] }
    rfl
    (by show st.api_calls_made + fs.length < st.max_api_calls; omega)
  rw [hl]

/-- Witness for C9: an immediately-private target (no followers
delivered) under the Scenario C session state. -/
theorem C9_private_target_verdict_witness :
    (check_trusted_followers scenarioC_state none envUnused
        [FetchEvent.errForbidden] 2).2
        = empty_validation_result "Target account is private"
    ∧ (empty_validation_result "Target account is private").error
        = some "Target account is private"
    ∧ (empty_validation_result "Target account is private").trusted_follower_count = 0
    ∧ (empty_validation_result "Target account is private").validation_strength = 0
    ∧ (empty_validation_result "Target account is private").trusted_followers = []
    ∧ (empty_validation_result "Target account is private").is_validated = false
    ∧ (empty_validation_result "Target account is private").trust_score.trust_level
        = "Unverified" :=
  C9_private_target_verdict scenarioC_state none envUnused [] 2
    (by decide) (by decide) (by decide)

/-- C10: (i) EVERY verdict carrying an error string reports
`api_calls_used = 0` and `checked_accounts = 0` (the
`_empty_validation_result` constructor hard-codes the zeros), regardless
of how many API calls the failed attempt actually consumed; (ii) for a
pagination that delivers `fs` followers and then raises, the discarded
per-follower increments ARE retained in the session-wide counter: the
field `api_calls_made` of the returned state is the initial counter plus one per
delivered follower, while the verdict is the zeroed error verdict. -/
theorem C10_error_verdict_zeroed_but_counted :
    (∀ (st : ValidatorState) (cache : Option (List (String × String)))
        (env : Nat → BatchOutcome) (events : List FetchEvent) (minr : Nat)
        (m : String),
      (check_trusted_followers st cache env events minr).2.error = some m →
      (check_trusted_followers st cache env events minr).2.api_calls_used = 0
      ∧ (check_trusted_followers st cache env events minr).2.checked_accounts = 0)
    ∧ (∀ (st : ValidatorState) (cache : Option (List (String × String)))
        (env : Nat → BatchOutcome) (fs : List FollowerInfo) (e : FetchEvent)
        (msg : String) (minr : Nat),
      st.trusted_user_ids.isEmpty = false →
      errMsg e = some msg →
      st.api_calls_made + fs.length < st.max_api_calls →
      fs.length < 1000 →
      (check_trusted_followers st cache env (fs.map .item ++ [e]) minr).2
          = empty_validation_result msg
      ∧ (check_trusted_followers st cache env (fs.map .item ++ [e]) minr).1.api_calls_made
          = st.api_calls_made + fs.length) := by
  constructor
  · intro st cache env events minr m herr
    rcases check_cases st cache env events minr with ⟨m', hm⟩ | ⟨ls, hl⟩
    · rw [hm]
      exact ⟨rfl, rfl⟩
    · rw [hl] at herr
      simp [success_result] at herr
  · intro st cache env fs e msg minr hE hmsg hb hcap
    rw [check_populated st cache env _ minr hE]
    unfold checkFollowersBody
    rw [if_neg (by omega)]
    rw [capEvents_items_err fs 1000 e (by rw [hmsg]; rfl) hcap]
    obtain ⟨ls, hl, hapi⟩ := followerLoop_err st.trusted_user_ids st.max_api_calls fs
      e msg
      { api_calls_made := st.api_calls_made, local_calls := 0,
        followers_checked := 0, trusted := [], cats := [] }
      hmsg
      (by show st.api_calls_made + fs.length < st.max_api_calls; omega)
    rw [hl]
    refine ⟨rfl, ?_⟩
    show ls.api_calls_made = st.api_calls_made + fs.length
    rw [hapi]

/-- Witness for C10: three followers are delivered, then the fetch raises
a generic exception; the verdict reports zero calls and zero checked
accounts while the session counter has moved from 0 to 3. -/
theorem C10_error_verdict_zeroed_but_counted_witness :
    ((check_trusted_followers scenarioC_state none envUnused
        (scenarioC_followers.map .item ++ [FetchEvent.errOther "boom"]) 2).2
        = empty_validation_result "Error checking followers: boom"
    ∧ (check_trusted_followers scenarioC_state none envUnused
        (scenarioC_followers.map .item ++ [FetchEvent.errOther "boom"]) 2).1.api_calls_made
        = scenarioC_state.api_calls_made + scenarioC_followers.length)
    ∧ ((check_trusted_followers exhausted_populated_state none envUnused [] 2).2.api_calls_used = 0
    ∧ (check_trusted_followers exhausted_populated_state none envUnused [] 2).2.checked_accounts = 0) :=
  ⟨C10_error_verdict_zeroed_but_counted.2 scenarioC_state none envUnused
      scenarioC_followers (FetchEvent.errOther "boom")
      "Error checking followers: boom" 2 (by decide) (by decide) (by decide) (by decide),
   C10_error_verdict_zeroed_but_counted.1 exhausted_populated_state none envUnused [] 2
      "API call limit reached" (by decide)⟩
